import Mathlib

/-!
Verification of the AIStore Python client access layer against its design
specification.  The definitions below shallowly embed the Python source:

* `src/python/aistore/sdk/object.py` — the `Object` facade (`get`, `put`,
  `promote`);
* `src/python-client/openapi_client/models/cluster_map.py` — the generated
  `ClusterMap` wire model.

Python dictionaries are embedded as association lists keyed by strings (first
match wins, insertion preserves position of an existing key, new keys are
appended — matching CPython dict semantics).  Byte payloads are `List Nat`.
JSON values are the inductive `Json` below.
-/

namespace AIStore

/-- A Python `dict[str, str]` as an association list: lookup returns the first
binding, item assignment overwrites in place or appends. -/
abbrev Dict := List (String × String)

/-- Python `d[k]` lookup returning `none` when the key is absent. -/
def dictGet : Dict → String → Option String
  | [], _ => none
  | (k', v') :: rest, k => if k' = k then some v' else dictGet rest k

/-- Python `d[k] = v`: overwrite the first binding of `k` in place, or append
a new binding when `k` is absent. -/
def dictSet : Dict → String → String → Dict
  | [], k, v => [(k, v)]
  | (k', v') :: rest, k, v =>
      if k' = k then (k, v) :: rest else (k', v') :: dictSet rest k v

/-- JSON values, the wire representation produced by the models. -/
inductive Json where
  | null : Json
  | str (s : String) : Json
  | num (n : Int) : Json
  | bool (b : Bool) : Json
  | obj (fields : List (String × Json)) : Json
  | arr (elems : List Json) : Json

/-- Modelled from the spec: `DaemonInfo` is an external collaborator type,
"consumed opaquely: identifier, network address, role".  Its exact Python
source is not part of the excerpt; only the three spec-named fields are
modelled. -/
structure DaemonInfo where
  identifier : String
  address : String
  role : String
deriving DecidableEq

/-- Modelled from the spec: serialization of a `DaemonInfo` to a JSON object
(the generated model's `to_dict`).  The core consumes it opaquely. -/
def DaemonInfo.to_dict (d : DaemonInfo) : Json :=
  Json.obj [("identifier", Json.str d.identifier),
            ("address", Json.str d.address),
            ("role", Json.str d.role)]

/-- The `ClusterMap` generated model (`cluster_map.py`).  Each attribute is
`None` (here `none`) until set.  The class also stores a `discriminator`
attribute that `__init__` sets to `None` and no method of the class ever
changes, so it is constant and omitted here (it cancels in `__dict__`
comparison). -/
structure ClusterMap where
  tmap : Option (List (String × DaemonInfo))
  pmap : Option (List (String × DaemonInfo))
  proxy_si : Option DaemonInfo
  version : Option Int
deriving DecidableEq

/-- The `tmap` property setter: stores its argument unconditionally. -/
def ClusterMap.tmap_set (m : ClusterMap) (t : Option (List (String × DaemonInfo))) :
    ClusterMap :=
  { m with tmap := t }

/-- The `pmap` property setter: stores its argument unconditionally. -/
def ClusterMap.pmap_set (m : ClusterMap) (p : Option (List (String × DaemonInfo))) :
    ClusterMap :=
  { m with pmap := p }

/-- The `proxy_si` property setter: stores its argument unconditionally. -/
def ClusterMap.proxy_si_set (m : ClusterMap) (p : Option DaemonInfo) : ClusterMap :=
  { m with proxy_si := p }

/-- The `version` property setter (`cluster_map.py` lines 139–148): stores its
argument unconditionally, with no comparison against the currently held
version. -/
def ClusterMap.version_set (m : ClusterMap) (v : Option Int) : ClusterMap :=
  { m with version := v }

/-- `ClusterMap.__init__`: every attribute starts as `None`; each argument
that is not `None` is then stored through its property setter.  The
constructor performs no validation and cannot fail. -/
def ClusterMap.init (tmap pmap : Option (List (String × DaemonInfo)))
    (proxy_si : Option DaemonInfo) (version : Option Int) : ClusterMap :=
  let m : ClusterMap := ⟨none, none, none, none⟩
  let m := match tmap with
    | some t => m.tmap_set (some t)
    | none => m
  let m := match pmap with
    | some p => m.pmap_set (some p)
    | none => m
  let m := match proxy_si with
    | some p => m.proxy_si_set (some p)
    | none => m
  match version with
  | some v => m.version_set (some v)
  | none => m

/-- A Python runtime value as seen by `ClusterMap.__eq__`: either a
`ClusterMap` instance or a value of some other type. -/
inductive PyValue where
  | cmap (m : ClusterMap)
  | intVal (n : Int)
  | strVal (s : String)
  | noneVal
deriving DecidableEq

/-- Whether a `PyValue` is a `ClusterMap` instance (`isinstance` check). -/
def PyValue.isClusterMap : PyValue → Bool
  | .cmap _ => true
  | _ => false

/-- `ClusterMap.__eq__`: `False` unless `other` is a `ClusterMap`, otherwise
`self.__dict__ == other.__dict__`, i.e. attribute-wise equality (the constant
`discriminator` attribute is `None` on both sides and cancels). -/
def ClusterMap.eq (m : ClusterMap) (other : PyValue) : Bool :=
  match other with
  | .cmap o =>
      decide (m.tmap = o.tmap) && decide (m.pmap = o.pmap) &&
      decide (m.proxy_si = o.proxy_si) && decide (m.version = o.version)
  | _ => false

/-- `ClusterMap.__ne__`: `not self == other`. -/
def ClusterMap.ne (m : ClusterMap) (other : PyValue) : Bool :=
  !(m.eq other)

/-- Serialization of an optional `dict(str, DaemonInfo)` attribute inside
`to_dict`: `None` stays `None`; a dict maps each value through its own
`to_dict`. -/
def optMapJson : Option (List (String × DaemonInfo)) → Json
  | none => Json.null
  | some entries => Json.obj (entries.map fun p => (p.1, p.2.to_dict))

/-- `ClusterMap.to_dict` (`cluster_map.py` lines 150–172): iterates the four
`openapi_types` keys in declaration order and stores `getattr(self, attr)` for
each — dict values are mapped through `to_dict`, objects with `to_dict` are
serialized, anything else (including `None`) is stored as-is.  No key is ever
omitted. -/
def ClusterMap.to_dict (m : ClusterMap) : List (String × Json) :=
  [("tmap", optMapJson m.tmap),
   ("pmap", optMapJson m.pmap),
   ("proxy_si", match m.proxy_si with
     | none => Json.null
     | some d => d.to_dict),
   ("version", match m.version with
     | none => Json.null
     | some v => Json.num v)]

/-- A client session applying a sequence of cluster-map updates: each update
stores the incoming map's version through the `version` setter. -/
def applyVersions (m : ClusterMap) (vs : List Int) : ClusterMap :=
  vs.foldl (fun acc v => acc.version_set (some v)) m

/-! ## The `Object` facade (`object.py`)

Python dicts are mutable heap objects; `object.py` mutates a copy of the
bucket's query-parameter dict (`self._qparams.copy()`), so aliasing matters
for the frame claim.  A tiny heap of dict cells makes the copy explicit:
addresses are indices into `cells`. -/

/-- A heap of mutable string-valued dicts; an address is an index. -/
structure Heap where
  cells : List Dict

/-- Allocate a fresh dict cell holding `d`; returns the new heap and the new
cell's address. -/
def Heap.alloc (h : Heap) (d : Dict) : Heap × Nat :=
  (⟨h.cells ++ [d]⟩, h.cells.length)

/-- Read the dict stored at address `a` (empty dict when out of range). -/
def Heap.read (h : Heap) (a : Nat) : Dict :=
  h.cells.getD a []

/-- Overwrite the dict stored at address `a`. -/
def Heap.store (h : Heap) (a : Nat) (d : Dict) : Heap :=
  ⟨h.cells.set a d⟩

/-- `params[k] = v` on the dict cell at address `a`. -/
def Heap.setItem (h : Heap) (a : Nat) (k v : String) : Heap :=
  h.store a (dictSet (h.read a) k v)

/-- Python truthiness of an optional string argument (`if s:`): `None` and
the empty string are falsy. -/
def pyTruthyStr : Option String → Bool
  | none => false
  | some s => s ≠ ""

/-- Python truthiness of an optional bytes argument: `None` and empty bytes
are falsy. -/
def pyTruthyBytes : Option (List Nat) → Bool
  | none => false
  | some b => b ≠ []

/-- Query-parameter construction of `Object.get` (`object.py` lines
101–104): `params = self._qparams.copy()`, then
`params[QParamArchpath] = archpath`, then `params[QParamETLName] = etl_name`
only when `etl_name` is truthy.  `qparamsAddr` is the address of the
caller-owned bucket dict; the result is the heap after the call together with
the address of the freshly allocated outgoing dict. -/
def get_build_params (h : Heap) (qparamsAddr : Nat) (archpath : String)
    (etl_name : Option String) : Heap × Nat :=
  let copied := h.alloc (h.read qparamsAddr)
  let h1 := copied.1
  let paramsAddr := copied.2
  let h2 := h1.setItem paramsAddr "archpath" archpath
  let h3 :=
    if pyTruthyStr etl_name then
      h2.setItem paramsAddr "etl_name" (etl_name.getD "")
    else h2
  (h3, paramsAddr)

/-- The network request issued by `Object.get` (`object.py` lines 105–110):
method `GET`, the object path, the freshly built query parameters, and
`stream=True`.  Returns the final heap, the request's method, path and stream
flag, and the address of the outgoing params dict. -/
def object_get_request (h : Heap) (qparamsAddr : Nat) (bck_name obj_name : String)
    (archpath : String) (etl_name : Option String) :
    Heap × String × String × Bool × Nat :=
  let built := get_build_params h qparamsAddr archpath etl_name
  (built.1, "get", "objects/" ++ bck_name ++ "/" ++ obj_name, true, built.2)

/-- Modelled from the spec: `ObjStream` (`aistore/sdk/types.py`, not part of
the excerpt) is, per §3, "a lazy, finite, non-restartable sequence of byte
chunks" and per §8.2 single-pass: draining it fully then draining again
yields an empty sequence.  `remaining` holds the chunks not yet produced. -/
structure ObjStream where
  remaining : List (List Nat)

/-- Draining an `ObjStream`: produces every remaining chunk in order and
leaves the stream exhausted (single-pass). -/
def ObjStream.drain (s : ObjStream) : List (List Nat) × ObjStream :=
  (s.remaining, ⟨[]⟩)

/-- Outcome of `Object.get` as seen by the writer and the caller: the chunks
written to the local sink (empty when no writer was supplied) and the
`ObjStream` value returned to the caller. -/
structure GetOutcome where
  sinkChunks : List (List Nat)
  stream : ObjStream

/-- The stream handling of `Object.get` (`object.py` lines 111–118): the
response body becomes an `ObjStream`; when a `writer` is supplied,
`writer.writelines(obj_stream)` drains the stream into the writer before the
stream is returned to the caller. -/
def object_get_stream (body : List (List Nat)) (hasWriter : Bool) : GetOutcome :=
  let obj_stream : ObjStream := ⟨body⟩
  if hasWriter then
    let drained := obj_stream.drain
    { sinkChunks := drained.1, stream := drained.2 }
  else
    { sinkChunks := [], stream := obj_stream }

/-- The chunks the caller obtains by iterating the stream `Object.get`
returned. -/
def GetOutcome.callerChunks (o : GetOutcome) : List (List Nat) :=
  o.stream.drain.1

/-- Result of `Object.put`: either the `ValueError` raised by the
mutual-exclusivity check, or the body of the single `PUT` request issued. -/
inductive PutResult where
  | valueError (msg : String)
  | request (data : Option (List Nat))

/-- Number of network calls a `PutResult` performed. -/
def PutResult.networkCalls : PutResult → Nat
  | .valueError _ => 0
  | .request _ => 1

/-- `Object.put` (`object.py` lines 120–152): raises `ValueError` when
`path and content` is truthy, before any request; otherwise reads the file at
`path` (when `path` is truthy, via the filesystem `fs`) or uses `content`
as-is, and issues one `PUT` request with that body. -/
def object_put (fs : String → List Nat) (path : Option String)
    (content : Option (List Nat)) : PutResult :=
  if pyTruthyStr path && pyTruthyBytes content then
    .valueError "path and content are mutually exclusive"
  else if pyTruthyStr path then
    .request (some (fs (path.getD "")))
  else
    .request content

/-- Modelled from the spec: the options object accepted by `promote`
(`PromoteOptions` in `aistore/sdk/types.py`, not part of the excerpt) carries,
per §3, an optional target identifier and the four flags recursive,
overwrite-destination, delete-source and source-is-not-a-shared-filesystem. -/
structure PromoteOptions where
  target_id : String
  recursive : Bool
  overwrite_dest : Bool
  delete_source : Bool
  src_not_file_share : Bool

/-- Modelled from the spec: `PromoteAPIArgs` (`aistore/sdk/types.py`, not part
of the excerpt) holds the PromoteRequest fields of §3 — source path,
destination object name, optional target identifier (empty when unset) and
the four flags, all defaulting to unset/false. -/
structure PromoteAPIArgs where
  target_id : String := ""
  source_path : String := ""
  object_name : String := ""
  recursive : Bool := false
  overwrite_dest : Bool := false
  delete_source : Bool := false
  src_not_file_share : Bool := false

/-- Modelled from the spec: `PromoteAPIArgs.get_json` serializes the
PromoteRequest fields of §3/§6 into the `value` object of the action body. -/
def PromoteAPIArgs.get_json (a : PromoteAPIArgs) : Json :=
  Json.obj [("target_id", Json.str a.target_id),
            ("source_path", Json.str a.source_path),
            ("object_name", Json.str a.object_name),
            ("recursive", Json.bool a.recursive),
            ("overwrite_dest", Json.bool a.overwrite_dest),
            ("delete_source", Json.bool a.delete_source),
            ("src_not_file_share", Json.bool a.src_not_file_share)]

/-- Key lookup in a JSON object's field list (first match). -/
def assocJson : List (String × Json) → String → Option Json
  | [], _ => none
  | (k', v) :: rest, k => if k' = k then some v else assocJson rest k

/-- Field lookup on a JSON value: `none` for non-objects and missing keys. -/
def Json.field (j : Json) (k : String) : Option Json :=
  match j with
  | .obj fields => assocJson fields k
  | _ => none

/-- The destination a client HTTP call is addressed to: the configured
endpoint (the primary proxy) or a specific cluster member. -/
inductive Destination where
  | primaryProxy
  | member (id : String)
deriving DecidableEq

/-- The JSON action body built by `Object.promote` (`object.py` lines
176–188): `ActionMsg(action=ACT_PROMOTE, name=path, value=value).dict()`,
where `value` is the serialized `PromoteAPIArgs` — defaults when no options
are given, otherwise the option fields with `source_path=path` and
`object_name` the object's name. -/
def promote_json (obj_name path : String) (opts : Option PromoteOptions) : Json :=
  let value := match opts with
    | none =>
        ({ source_path := path, object_name := obj_name } : PromoteAPIArgs).get_json
    | some o =>
        ({ target_id := o.target_id, source_path := path, object_name := obj_name,
           recursive := o.recursive, overwrite_dest := o.overwrite_dest,
           delete_source := o.delete_source,
           src_not_file_share := o.src_not_file_share } : PromoteAPIArgs).get_json
  Json.obj [("action", Json.str "promote"), ("name", Json.str path),
            ("value", value)]

/-- The HTTP request issued by `Object.promote` (`object.py` lines 190–192):
`self._client.request(HTTP_METHOD_POST, path=url, params=self._qparams,
json=json_val)`.  The client's `request` takes no destination argument — it
prepends the session's configured endpoint (the primary proxy) to `path` —
so the destination is the primary proxy for every call, independent of the
options. -/
def object_promote (bck_name obj_name path : String)
    (opts : Option PromoteOptions) : Destination × String × String × Json :=
  (Destination.primaryProxy, "post", "/objects/" ++ bck_name,
   promote_json obj_name path opts)

/-! ## Helper lemmas about dicts and the heap -/

theorem dictGet_dictSet_self (d : Dict) (k v : String) :
    dictGet (dictSet d k v) k = some v := by
  induction d with
  | nil => simp [dictSet, dictGet]
  | cons hd tl ih =>
      obtain ⟨k', v'⟩ := hd
      by_cases hk : k' = k
      · simp [dictSet, hk, dictGet]
      · simp [dictSet, hk, dictGet, ih]

theorem dictGet_dictSet_ne (d : Dict) (k v k' : String) (h : k' ≠ k) :
    dictGet (dictSet d k v) k' = dictGet d k' := by
  have hne : ¬(k = k') := fun he => h he.symm
  induction d with
  | nil => simp [dictSet, dictGet, hne]
  | cons hd tl ih =>
      obtain ⟨k0, v0⟩ := hd
      by_cases hk : k0 = k
      · subst hk
        simp [dictSet, dictGet, hne]
      · simp only [dictSet, hk, if_false, dictGet]
        by_cases hk' : k0 = k'
        · simp [hk']
        · simp [hk', ih]

theorem Heap.read_alloc_old (h : Heap) (d : Dict) (a : Nat) (ha : a < h.cells.length) :
    (h.alloc d).1.read a = h.read a :=
  List.getD_append _ _ _ _ ha

theorem Heap.read_alloc_new (h : Heap) (d : Dict) :
    (h.alloc d).1.read (h.alloc d).2 = d := by
  simp [Heap.alloc, Heap.read, List.getD]

theorem Heap.read_store_same (h : Heap) (a : Nat) (d : Dict) (ha : a < h.cells.length) :
    (h.store a d).read a = d := by
  simp [Heap.store, Heap.read, List.getD, List.getElem?_set_self, ha]

theorem Heap.read_store_ne (h : Heap) (a b : Nat) (d : Dict) (hab : b ≠ a) :
    (h.store b d).read a = h.read a := by
  simp [Heap.store, Heap.read, List.getD, List.getElem?_set_ne hab]

theorem Heap.length_store (h : Heap) (a : Nat) (d : Dict) :
    (h.store a d).cells.length = h.cells.length := by
  simp [Heap.store]

theorem Heap.read_setItem_same (h : Heap) (a : Nat) (k v : String)
    (ha : a < h.cells.length) :
    (h.setItem a k v).read a = dictSet (h.read a) k v := by
  simp [Heap.setItem, Heap.read_store_same _ _ _ ha]

theorem Heap.read_setItem_ne (h : Heap) (a b : Nat) (k v : String) (hab : b ≠ a) :
    (h.setItem b k v).read a = h.read a := by
  simp [Heap.setItem, Heap.read_store_ne _ _ _ _ hab]

/-- The dict `Object.get` sends as query parameters when the transform name
is truthy: the caller's dict with `archpath` then `etl_name` inserted. -/
theorem get_build_params_read_truthy (h : Heap) (q : Nat) (a : String)
    (e : Option String) (he : pyTruthyStr e = true) :
    (get_build_params h q a e).1.read (get_build_params h q a e).2 =
      dictSet (dictSet (h.read q) "archpath" a) "etl_name" (e.getD "") := by
  have hread : Heap.read ⟨h.cells ++ [h.read q]⟩ h.cells.length = h.read q := by
    simpa [Heap.alloc] using Heap.read_alloc_new h (h.read q)
  simp only [get_build_params, Heap.alloc, he, if_true]
  rw [Heap.read_setItem_same _ _ _ _ (by simp [Heap.setItem, Heap.store]),
    Heap.read_setItem_same _ _ _ _ (by simp), hread]

/-- The dict `Object.get` sends as query parameters when no truthy transform
name is given: the caller's dict with only `archpath` inserted. -/
theorem get_build_params_read_falsy (h : Heap) (q : Nat) (a : String)
    (e : Option String) (he : pyTruthyStr e = false) :
    (get_build_params h q a e).1.read (get_build_params h q a e).2 =
      dictSet (h.read q) "archpath" a := by
  have hread : Heap.read ⟨h.cells ++ [h.read q]⟩ h.cells.length = h.read q := by
    simpa [Heap.alloc] using Heap.read_alloc_new h (h.read q)
  simp only [get_build_params, Heap.alloc, he, Bool.false_eq_true, if_false]
  rw [Heap.read_setItem_same _ _ _ _ (by simp), hread]

/-- The caller's dict cell is untouched by `get_build_params`: the copy is
allocated at a fresh address and mutated there. -/
theorem get_build_params_frame (h : Heap) (q : Nat) (a : String) (e : Option String)
    (hq : q < h.cells.length) :
    (get_build_params h q a e).1.read q = h.read q
    ∧ (get_build_params h q a e).2 ≠ q := by
  have hne : h.cells.length ≠ q := Nat.ne_of_gt hq
  have halloc : Heap.read ⟨h.cells ++ [h.read q]⟩ q = h.read q := by
    simpa [Heap.alloc] using Heap.read_alloc_old h (h.read q) q hq
  constructor
  · by_cases he : pyTruthyStr e
    · simp only [get_build_params, Heap.alloc, he, if_true]
      rw [Heap.read_setItem_ne _ _ _ _ _ hne, Heap.read_setItem_ne _ _ _ _ _ hne,
        halloc]
    · simp only [get_build_params, Heap.alloc, he, Bool.false_eq_true, if_false]
      rw [Heap.read_setItem_ne _ _ _ _ _ hne, halloc]
  · by_cases he : pyTruthyStr e <;>
      simp [get_build_params, Heap.alloc, he, hne]

/-! ## Claim theorems -/

/-- C4 (counterexample): the `version` setter keeps no monotonicity — a
session holding a map of version 5 that applies a map of version 3 ends up
holding version 3, not the maximum 5, even though 3 ≤ 5. -/
theorem version_monotonicity_counterexample :
    (applyVersions (ClusterMap.init none none none none) [5, 3]).version = some 3
    ∧ (3 : Int) ≤ 5
    ∧ some (3 : Int) ≠ some (5 : Int) :=
  ⟨rfl, by decide, by decide⟩

/-- C4 (amended): the `version` setter stores its argument unconditionally,
so after any sequence of applied cluster-map updates the held version is that
of the last map applied — the empty sequence leaves the initial version. -/
theorem version_last_write_wins (m : ClusterMap) (vs : List Int) (v : Int) :
    (applyVersions m (vs ++ [v])).version = some v
    ∧ (applyVersions m []).version = m.version := by
  constructor
  · simp [applyVersions, List.foldl_append, ClusterMap.version_set]
  · rfl

/-- C6: `ClusterMap.__init__` accepts any subset of the four fields; it is a
total function (never raises), and every absent argument leaves the
corresponding attribute unset (`none`) while present arguments are stored
as given. -/
theorem cluster_map_fields_optional (t p : Option (List (String × DaemonInfo)))
    (s : Option DaemonInfo) (v : Option Int) :
    (ClusterMap.init t p s v).tmap = t
    ∧ (ClusterMap.init t p s v).pmap = p
    ∧ (ClusterMap.init t p s v).proxy_si = s
    ∧ (ClusterMap.init t p s v).version = v := by
  cases t <;> cases p <;> cases s <;> cases v <;>
    simp [ClusterMap.init, ClusterMap.tmap_set, ClusterMap.pmap_set,
      ClusterMap.proxy_si_set, ClusterMap.version_set]

/-- C7: `ClusterMap.__eq__` is structural over the four attributes, `__ne__`
is its exact negation, and comparison against a non-`ClusterMap` value
(`int`, `str`, `None`) is always `False`. -/
theorem cluster_map_eq_structural (a b : ClusterMap) (n : Int) (s : String) :
    (a.eq (PyValue.cmap b) = true ↔
      (a.tmap = b.tmap ∧ a.pmap = b.pmap ∧ a.proxy_si = b.proxy_si
        ∧ a.version = b.version))
    ∧ (∀ v : PyValue, a.ne v = !(a.eq v))
    ∧ a.eq (PyValue.intVal n) = false
    ∧ a.eq (PyValue.strVal s) = false
    ∧ a.eq PyValue.noneVal = false := by
  refine ⟨?_, fun v => rfl, rfl, rfl, rfl⟩
  simp [ClusterMap.eq, and_assoc]

/-- C10: `ClusterMap.to_dict` always emits exactly the four keys `tmap`,
`pmap`, `proxy_si`, `version` in declaration order; attributes never set are
emitted with an explicit `null` value rather than omitted, and set attributes
serialize to their values. -/
theorem cluster_map_to_dict_shape (m : ClusterMap) (t : List (String × DaemonInfo))
    (d : DaemonInfo) (v : Int) :
    m.to_dict.map Prod.fst = ["tmap", "pmap", "proxy_si", "version"]
    ∧ (ClusterMap.init none none none none).to_dict =
        [("tmap", Json.null), ("pmap", Json.null),
         ("proxy_si", Json.null), ("version", Json.null)]
    ∧ (ClusterMap.init (some t) none (some d) none).to_dict =
        [("tmap", optMapJson (some t)), ("pmap", Json.null),
         ("proxy_si", d.to_dict), ("version", Json.null)]
    ∧ (ClusterMap.init none (some t) none (some v)).to_dict =
        [("tmap", Json.null), ("pmap", optMapJson (some t)),
         ("proxy_si", Json.null), ("version", Json.num v)] :=
  ⟨rfl, rfl, rfl, rfl⟩

/-- C1 (counterexample): for a one-chunk body `[1]` read with a writer
attached, the sink receives the byte `1` while the returned stream — already
drained by `writer.writelines` — yields nothing to the caller, so the sink
and caller byte sequences diverge. -/
theorem sink_fidelity_counterexample :
    (object_get_stream [[1]] true).sinkChunks.flatten = [1]
    ∧ (object_get_stream [[1]] true).callerChunks.flatten = ([] : List Nat)
    ∧ ([1] : List Nat) ≠ [] :=
  ⟨rfl, rfl, by decide⟩

/-- C1 (amended): with a writer attached, `writer.writelines(obj_stream)`
writes every chunk of the body to the sink, in order, but thereby exhausts
the single-pass stream: the stream returned to the caller yields the empty
sequence.  Without a writer the caller receives every chunk. -/
theorem get_writer_drains_stream (body : List (List Nat)) :
    (object_get_stream body true).sinkChunks = body
    ∧ (object_get_stream body true).callerChunks = []
    ∧ (object_get_stream body false).sinkChunks = []
    ∧ (object_get_stream body false).callerChunks = body :=
  ⟨rfl, rfl, rfl, rfl⟩

/-- C2: when both `path` and `content` are truthy, `Object.put` raises
`ValueError("path and content are mutually exclusive")` and performs zero
network calls. -/
theorem put_mutual_exclusivity (fs : String → List Nat) (path : Option String)
    (content : Option (List Nat)) (hp : pyTruthyStr path = true)
    (hc : pyTruthyBytes content = true) :
    object_put fs path content =
      PutResult.valueError "path and content are mutually exclusive"
    ∧ (object_put fs path content).networkCalls = 0 := by
  simp [object_put, hp, hc, PutResult.networkCalls]

/-- C2 (witness): concrete instance with `path="f"` and one byte of
content. -/
theorem put_mutual_exclusivity_witness :
    object_put (fun _ => []) (some "f") (some [1]) =
      PutResult.valueError "path and content are mutually exclusive"
    ∧ (object_put (fun _ => []) (some "f") (some [1])).networkCalls = 0 :=
  put_mutual_exclusivity (fun _ => []) (some "f") (some [1]) (by decide) (by decide)

/-- C3 (counterexample): a promote call with `target_id="t1"` is still
addressed to the primary proxy — the client's `request` has no destination
argument — not directly to member `t1`. -/
theorem promote_routing_counterexample :
    (object_promote "bck" "obj" "/data/x"
      (some ⟨"t1", false, false, false, false⟩)).1 = Destination.primaryProxy
    ∧ Destination.primaryProxy ≠ Destination.member "t1" :=
  ⟨rfl, by decide⟩

/-- C3 (amended): the target identifier travels inside the action payload
(`value.target_id`); the HTTP request itself — with or without options — is a
`POST` to the bucket path on the primary proxy. -/
theorem promote_destination_and_payload (bck obj path : String)
    (o : PromoteOptions) (opts : Option PromoteOptions) :
    (object_promote bck obj path opts).1 = Destination.primaryProxy
    ∧ (object_promote bck obj path opts).2.1 = "post"
    ∧ (object_promote bck obj path opts).2.2.1 = "/objects/" ++ bck
    ∧ (((object_promote bck obj path (some o)).2.2.2.field "value").bind
        fun v => v.field "target_id") = some (Json.str o.target_id) := by
  refine ⟨rfl, rfl, rfl, ?_⟩
  simp [object_promote, promote_json, Json.field, assocJson,
    PromoteAPIArgs.get_json]

/-- C5: a default-options promote of source path `p` onto object `n` in
bucket `bck` issues a `POST` to `/objects/{bck}` whose JSON action body is
`{action: "promote", name: p, value: {target_id: "", source_path: p,
object_name: n, flags all false}}`. -/
theorem promote_payload_shape (bck p n : String) :
    object_promote bck n p none =
      (Destination.primaryProxy, "post", "/objects/" ++ bck,
       Json.obj [("action", Json.str "promote"), ("name", Json.str p),
         ("value", Json.obj [("target_id", Json.str ""),
           ("source_path", Json.str p), ("object_name", Json.str n),
           ("recursive", Json.bool false), ("overwrite_dest", Json.bool false),
           ("delete_source", Json.bool false),
           ("src_not_file_share", Json.bool false)])]) := rfl

/-- C8: the outgoing query parameters of `Object.get` are exactly the
bucket-scoped ones plus `archpath` (always, set to the `archpath` argument)
plus `etl_name` only when the transform name is truthy; every other key is
taken unchanged from the bucket dict; and the method, path and stream flag of
the request are fixed independently of `archpath`/`etl_name`. -/
theorem get_query_params_exact (h : Heap) (q : Nat) (bck obj archpath : String)
    (etl : Option String) (k : String) (hk1 : k ≠ "archpath")
    (hk2 : k ≠ "etl_name") :
    dictGet ((get_build_params h q archpath etl).1.read
        (get_build_params h q archpath etl).2) "archpath" = some archpath
    ∧ dictGet ((get_build_params h q archpath etl).1.read
        (get_build_params h q archpath etl).2) "etl_name" =
        (if pyTruthyStr etl then some (etl.getD "")
         else dictGet (h.read q) "etl_name")
    ∧ dictGet ((get_build_params h q archpath etl).1.read
        (get_build_params h q archpath etl).2) k = dictGet (h.read q) k
    ∧ (object_get_request h q bck obj archpath etl).2.1 = "get"
    ∧ (object_get_request h q bck obj archpath etl).2.2.1 =
        "objects/" ++ bck ++ "/" ++ obj
    ∧ (object_get_request h q bck obj archpath etl).2.2.2.1 = true := by
  by_cases he : pyTruthyStr etl
  · rw [get_build_params_read_truthy h q archpath etl he]
    refine ⟨?_, ?_, ?_, rfl, rfl, rfl⟩
    · rw [dictGet_dictSet_ne _ _ _ _ (by decide), dictGet_dictSet_self]
    · simp [he, dictGet_dictSet_self]
    · rw [dictGet_dictSet_ne _ _ _ _ hk2, dictGet_dictSet_ne _ _ _ _ hk1]
  · rw [get_build_params_read_falsy h q archpath etl (by simpa using he)]
    refine ⟨dictGet_dictSet_self _ _ _, ?_, ?_, rfl, rfl, rfl⟩
    · rw [if_neg he]
      exact dictGet_dictSet_ne _ _ _ _ (by decide)
    · exact dictGet_dictSet_ne _ _ _ _ hk1

/-- C8 (witness): concrete instance — one bucket dict holding `provider`,
default `archpath`, no transform name, probe key `provider`. -/
theorem get_query_params_exact_witness :
    dictGet ((get_build_params ⟨[[("provider", "ais")]]⟩ 0 "" none).1.read
        (get_build_params ⟨[[("provider", "ais")]]⟩ 0 "" none).2) "archpath" =
      some ""
    ∧ dictGet ((get_build_params ⟨[[("provider", "ais")]]⟩ 0 "" none).1.read
        (get_build_params ⟨[[("provider", "ais")]]⟩ 0 "" none).2) "etl_name" =
        (if pyTruthyStr none then some (Option.getD none "")
         else dictGet (Heap.read ⟨[[("provider", "ais")]]⟩ 0) "etl_name")
    ∧ dictGet ((get_build_params ⟨[[("provider", "ais")]]⟩ 0 "" none).1.read
        (get_build_params ⟨[[("provider", "ais")]]⟩ 0 "" none).2) "provider" =
        dictGet (Heap.read ⟨[[("provider", "ais")]]⟩ 0) "provider"
    ∧ (object_get_request ⟨[[("provider", "ais")]]⟩ 0 "b" "o" "" none).2.1 = "get"
    ∧ (object_get_request ⟨[[("provider", "ais")]]⟩ 0 "b" "o" "" none).2.2.1 =
        "objects/" ++ "b" ++ "/" ++ "o"
    ∧ (object_get_request ⟨[[("provider", "ais")]]⟩ 0 "b" "o" "" none).2.2.2.1 =
        true :=
  get_query_params_exact ⟨[[("provider", "ais")]]⟩ 0 "b" "o" "" none "provider"
    (by decide) (by decide)

/-- C9: `Object.get` never mutates the caller-owned bucket query-parameter
dict — the `archpath`/`etl_name` insertions land on a freshly allocated copy
at a different address, and the caller's cell reads back unchanged. -/
theorem get_caller_params_unchanged (h : Heap) (q : Nat) (bck obj archpath : String)
    (etl : Option String) (hq : q < h.cells.length) :
    (object_get_request h q bck obj archpath etl).1.read q = h.read q
    ∧ (object_get_request h q bck obj archpath etl).2.2.2.2 ≠ q := by
  have hfr := get_build_params_frame h q archpath etl hq
  exact ⟨hfr.1, hfr.2⟩

/-- C9 (witness): concrete instance — the bucket dict at address 0 holding
`provider` is unchanged by the call, and the outgoing dict lives elsewhere. -/
theorem get_caller_params_unchanged_witness :
    (object_get_request ⟨[[("provider", "ais")]]⟩ 0 "b" "o" "" none).1.read 0 =
      Heap.read ⟨[[("provider", "ais")]]⟩ 0
    ∧ (object_get_request ⟨[[("provider", "ais")]]⟩ 0 "b" "o" "" none).2.2.2.2 ≠
        0 :=
  get_caller_params_unchanged ⟨[[("provider", "ais")]]⟩ 0 "b" "o" "" none
    (by decide)

end AIStore
